import Mathlib

/-!
Verification of the Warrior-Survivors gameplay core against its
natural-language specification.

The definitions below are a shallow embedding of the Python sources under
src/code/ (player.py, enemy.py, weapon.py, skills.py, sprites.py, main.py).
Pygame rectangles are modelled as integer-coordinate axis-aligned boxes
(pygame.Rect stores int left/top/width/height), wall-clock timestamps
(pygame.time.get_ticks, milliseconds) as integers, and the per-frame mutation
of sprite attributes as explicit state passing.
-/

namespace WarriorSurvivors

/-- Model of pygame.Rect: integer left/top coordinates and width/height,
as stored by pygame (all pygame Rect attributes are ints). -/
structure Rect where
  left : Int
  top : Int
  width : Int
  height : Int
deriving DecidableEq, Repr

/-- Right edge of a rect, as pygame computes it (left + width). -/
def Rect.right (r : Rect) : Int := r.left + r.width

/-- Bottom edge of a rect (top + height). -/
def Rect.bottom (r : Rect) : Int := r.top + r.height

/-- Model of pygame.Rect.colliderect: the rects overlap with nonzero area.
pygame compares min/max of each edge pair so that rects with negative sizes
are handled; edge-touching rects do NOT collide (strict inequalities), and
zero-width or zero-height rects never collide. -/
def colliderect (a b : Rect) : Bool :=
  decide (min a.left a.right < max b.left b.right) &&
  decide (min b.left b.right < max a.left a.right) &&
  decide (min a.top a.bottom < max b.top b.bottom) &&
  decide (min b.top b.bottom < max a.top a.bottom)

/-- Move a rect so that its right edge is the given value (pygame
Rect.right assignment keeps the size and moves the rect). -/
def Rect.setRight (r : Rect) (v : Int) : Rect := { r with left := v - r.width }

/-- Move a rect so that its left edge is the given value. -/
def Rect.setLeft (r : Rect) (v : Int) : Rect := { r with left := v }

/-- Move a rect so that its top edge is the given value. -/
def Rect.setTop (r : Rect) (v : Int) : Rect := { r with top := v }

/-- Move a rect so that its bottom edge is the given value. -/
def Rect.setBottom (r : Rect) (v : Int) : Rect := { r with top := v - r.height }

/-- Embedding of Player.collision(self, 'horizontal') from src/code/player.py
lines 108-119 (Enemy.collision in src/code/enemy.py lines 81-95 is the same
loop, additionally gated on the enemy not being invulnerable, see
enemyCollisionH below).  For every obstacle sprite, in iteration order:
if it collides with the current hitbox, push the hitbox out along x in the
direction opposite to the sign of direction.x.  dirx is the sign carrier of
self.direction.x (the code tests direction.x > 0 and direction.x < 0). -/
def collisionHStep (dirx : Int) (r s : Rect) : Rect :=
  if colliderect s r then
    let r1 := if dirx > 0 then r.setRight s.left else r
    if dirx < 0 then r1.setLeft s.right else r1
  else r

def collisionH (dirx : Int) (obstacles : List Rect) (hb : Rect) : Rect :=
  obstacles.foldl (collisionHStep dirx) hb

/-- Embedding of Player.collision(self, 'vertical') from src/code/player.py
lines 108-122 (the else branch of the direction test): push the hitbox out
along y by the sign of direction.y. -/
def collisionVStep (diry : Int) (r s : Rect) : Rect :=
  if colliderect s r then
    let r1 := if diry < 0 then r.setTop s.bottom else r
    if diry > 0 then r1.setBottom s.top else r1
  else r

def collisionV (diry : Int) (obstacles : List Rect) (hb : Rect) : Rect :=
  obstacles.foldl (collisionVStep diry) hb

/-- Embedding of Player.move / Enemy.move (src/code/player.py lines 95-106,
src/code/enemy.py lines 65-79): apply the x delta, resolve x penetrations,
apply the y delta, resolve y penetrations.  dirx/diry carry the signs of the
normalized direction components tested by the pushes; dx/dy are the applied
integer pixel deltas (direction * speed * dt, truncated to int by the pygame
Rect coordinate assignment). -/
def move (hb : Rect) (dirx diry dx dy : Int) (obstacles : List Rect) : Rect :=
  let h1 := { hb with left := hb.left + dx }
  let h2 := collisionH dirx obstacles h1
  let h3 := { h2 with top := h2.top + dy }
  collisionV diry obstacles h3

/-- Embedding of Enemy.collision horizontal branch (src/code/enemy.py lines
81-95): identical to the player resolver but skipped entirely while the
enemy is invulnerable. -/
def enemyCollisionH (invulnerable : Bool) (dirx : Int) (obstacles : List Rect)
    (hb : Rect) : Rect :=
  if invulnerable then hb else collisionH dirx obstacles hb

/-- Embedding of Enemy.collision vertical branch (src/code/enemy.py lines
81-100), gated on the enemy not being invulnerable. -/
def enemyCollisionV (invulnerable : Bool) (diry : Int) (obstacles : List Rect)
    (hb : Rect) : Rect :=
  if invulnerable then hb else collisionV diry obstacles hb

/-- The applied pixel delta on an axis agrees in sign with the normalized
direction component whose sign the resolver tests: the code derives the
delta as direction * speed * dt with speed > 0 and dt > 0 and pygame
truncates the coordinate toward the old value, so the delta is 0 or has the
direction component's sign. -/
def signCoherent (dir delta : Int) : Prop :=
  (0 < dir → 0 ≤ delta) ∧ (dir < 0 → delta ≤ 0) ∧ (dir = 0 → delta = 0)

lemma collisionH_not_colliding (o r : Rect) (sx : Int)
    (h : colliderect o r = false) : collisionH sx [o] r = r := by
  simp [collisionH, collisionHStep, h]

lemma collisionV_not_colliding (o r : Rect) (diry : Int)
    (h : colliderect o r = false) : collisionV diry [o] r = r := by
  simp [collisionV, collisionVStep, h]

lemma collisionHStep_sizes (sx : Int) (r s : Rect) :
    (collisionHStep sx r s).width = r.width ∧
    (collisionHStep sx r s).height = r.height ∧
    (collisionHStep sx r s).top = r.top := by
  unfold collisionHStep
  by_cases hcol : colliderect s r <;>
    by_cases h1 : sx > 0 <;> by_cases h2 : sx < 0 <;>
    simp [hcol, h1, h2, Rect.setRight, Rect.setLeft]

lemma collisionVStep_sizes (diry : Int) (r s : Rect) :
    (collisionVStep diry r s).width = r.width ∧
    (collisionVStep diry r s).height = r.height := by
  unfold collisionVStep
  by_cases hcol : colliderect s r <;>
    by_cases h1 : diry < 0 <;> by_cases h2 : diry > 0 <;>
    simp [hcol, h1, h2, Rect.setTop, Rect.setBottom]

lemma collisionH_sizes (sx : Int) (obstacles : List Rect) (r : Rect) :
    (collisionH sx obstacles r).width = r.width ∧
    (collisionH sx obstacles r).height = r.height ∧
    (collisionH sx obstacles r).top = r.top := by
  induction obstacles generalizing r with
  | nil => exact ⟨rfl, rfl, rfl⟩
  | cons s rest ih =>
    have hstep := collisionHStep_sizes sx r s
    have hrest := ih (collisionHStep sx r s)
    simp only [collisionH, List.foldl_cons] at *
    omega

lemma collisionV_sizes (diry : Int) (obstacles : List Rect) (r : Rect) :
    (collisionV diry obstacles r).width = r.width ∧
    (collisionV diry obstacles r).height = r.height := by
  induction obstacles generalizing r with
  | nil => exact ⟨rfl, rfl⟩
  | cons s rest ih =>
    have hstep := collisionVStep_sizes diry r s
    have hrest := ih (collisionVStep diry r s)
    simp only [collisionV, List.foldl_cons] at *
    omega

lemma collisionH_single (o r : Rect) (sx : Int)
    (hw : 0 ≤ r.width) (how : 0 ≤ o.width)
    (h : colliderect o r = false ∨ sx ≠ 0) :
    colliderect o (collisionH sx [o] r) = false := by
  rcases h with h | h
  · rw [collisionH_not_colliding o r sx h]; exact h
  · by_cases hc : colliderect o r = true
    · rcases lt_or_gt_of_ne h with hneg | hpos
      · have hnp : ¬ sx > 0 := by omega
        have hres : collisionH sx [o] r = r.setLeft o.right := by
          simp only [collisionH, collisionHStep, List.foldl_cons, List.foldl_nil, hc,
            if_true, if_neg hnp, if_pos hneg]
        rw [hres]
        simp only [colliderect, Rect.setLeft, Rect.right, Rect.bottom,
          Bool.and_eq_false_iff, decide_eq_false_iff_not, not_lt]
        omega
      · have hnn : ¬ sx < 0 := by omega
        have hres : collisionH sx [o] r = r.setRight o.left := by
          simp only [collisionH, collisionHStep, List.foldl_cons, List.foldl_nil, hc,
            if_true, if_pos hpos, if_neg hnn]
        rw [hres]
        simp only [colliderect, Rect.setRight, Rect.right, Rect.bottom,
          Bool.and_eq_false_iff, decide_eq_false_iff_not, not_lt]
        omega
    · rw [collisionH_not_colliding o r sx (by simpa using hc)]
      simpa using hc

lemma collisionV_single (o r : Rect) (diry : Int)
    (hh : 0 ≤ r.height) (hoh : 0 ≤ o.height)
    (h : colliderect o r = false ∨ diry ≠ 0) :
    colliderect o (collisionV diry [o] r) = false := by
  rcases h with h | h
  · rw [collisionV_not_colliding o r diry h]; exact h
  · by_cases hc : colliderect o r = true
    · rcases lt_or_gt_of_ne h with hneg | hpos
      · have hnp : ¬ diry > 0 := by omega
        have hres : collisionV diry [o] r = r.setTop o.bottom := by
          simp only [collisionV, collisionVStep, List.foldl_cons, List.foldl_nil, hc,
            if_true, if_pos hneg, if_neg hnp]
        rw [hres]
        simp only [colliderect, Rect.setTop, Rect.right, Rect.bottom,
          Bool.and_eq_false_iff, decide_eq_false_iff_not, not_lt]
        omega
      · have hnn : ¬ diry < 0 := by omega
        have hres : collisionV diry [o] r = r.setBottom o.top := by
          simp only [collisionV, collisionVStep, List.foldl_cons, List.foldl_nil, hc,
            if_true, if_neg hnn, if_pos hpos]
        rw [hres]
        simp only [colliderect, Rect.setBottom, Rect.right, Rect.bottom,
          Bool.and_eq_false_iff, decide_eq_false_iff_not, not_lt]
        omega
    · rw [collisionV_not_colliding o r diry (by simpa using hc)]
      simpa using hc

lemma shift_left_zero (r : Rect) : { r with left := r.left + 0 } = r := by
  cases r; simp

lemma shift_top_zero (r : Rect) : { r with top := r.top + 0 } = r := by
  cases r; simp

/-- C1 counterexample: with the two obstacles [0,10]x[0,10] and
[20,30]x[0,10] (in that iteration order) and a 15-wide hitbox starting at
[-20,-5]x[0,10], disjoint from both, a rightward move of 35 pixels is pushed
out of the second obstacle back into the first obstacle, which the
resolution loop has already passed — so after resolution the hitbox still
overlaps an obstacle, refuting the claim as stated. -/
theorem collision_resolution_overlap_counterexample :
    colliderect (Rect.mk 0 0 10 10) (Rect.mk (-20) 0 15 10) = false ∧
    colliderect (Rect.mk 20 0 10 10) (Rect.mk (-20) 0 15 10) = false ∧
    colliderect (Rect.mk 0 0 10 10)
      (move (Rect.mk (-20) 0 15 10) 1 0 35 0
        [Rect.mk 0 0 10 10, Rect.mk 20 0 10 10]) = true := by
  refine ⟨by decide, by decide, by decide⟩

/-- C1 (amended): against a SINGLE static obstacle rectangle, the
axis-separated resolution is correct: if the hitbox starts disjoint from
the obstacle and the applied deltas agree in sign with the direction
components the pushes test (which the code guarantees), then after applying
the x delta, resolving x penetrations, applying the y delta and resolving y
penetrations the hitbox does not overlap the obstacle.  (With two or more
obstacles a push can re-enter an obstacle checked earlier in the same pass,
and a hitbox already overlapping an obstacle with zero velocity is left
overlapping, so the universal claim fails — see the counterexample.) -/
lemma resolve_shift_x (pre o : Rect) (s d : Int)
    (hw : 0 ≤ pre.width) (how : 0 ≤ o.width)
    (hpre : colliderect o pre = false) (hco : signCoherent s d) :
    colliderect o (collisionH s [o] { pre with left := pre.left + d }) = false := by
  refine collisionH_single o { pre with left := pre.left + d } s ?_ how ?_
  · exact hw
  · by_cases hc : colliderect o { pre with left := pre.left + d } = false
    · exact Or.inl hc
    · refine Or.inr (fun h0 => hc ?_)
      rw [hco.2.2 h0, shift_left_zero]
      exact hpre

lemma resolve_shift_y (pre o : Rect) (s d : Int)
    (hh : 0 ≤ pre.height) (hoh : 0 ≤ o.height)
    (hpre : colliderect o pre = false) (hco : signCoherent s d) :
    colliderect o (collisionV s [o] { pre with top := pre.top + d }) = false := by
  refine collisionV_single o { pre with top := pre.top + d } s ?_ hoh ?_
  · exact hh
  · by_cases hc : colliderect o { pre with top := pre.top + d } = false
    · exact Or.inl hc
    · refine Or.inr (fun h0 => hc ?_)
      rw [hco.2.2 h0, shift_top_zero]
      exact hpre

theorem collision_resolution_single_obstacle_safe
    (hb o : Rect) (dirx diry dx dy : Int)
    (hw : 0 ≤ hb.width) (hh : 0 ≤ hb.height)
    (how : 0 ≤ o.width) (hoh : 0 ≤ o.height)
    (hdisj : colliderect o hb = false)
    (hcx : signCoherent dirx dx) (hcy : signCoherent diry dy) :
    colliderect o (move hb dirx diry dx dy [o]) = false := by
  have hafterx := resolve_shift_x hb o dirx dx hw how hdisj hcx
  have hh2 : 0 ≤ (collisionH dirx [o] { hb with left := hb.left + dx }).height := by
    rw [(collisionH_sizes dirx [o] { hb with left := hb.left + dx }).2.1]
    exact hh
  have hfinal := resolve_shift_y
    (collisionH dirx [o] { hb with left := hb.left + dx }) o diry dy
    hh2 hoh hafterx hcy
  simpa only [move] using hfinal

/-- C1 witness: a concrete instance of the amended theorem — a hitbox moving
diagonally toward a single obstacle stops flush against it without overlap. -/
theorem collision_resolution_single_obstacle_safe_witness :
    colliderect (Rect.mk 100 100 40 40)
      (move (Rect.mk 0 0 30 30) 1 1 80 80 [Rect.mk 100 100 40 40]) = false := by
  exact collision_resolution_single_obstacle_safe
    (Rect.mk 0 0 30 30) (Rect.mk 100 100 40 40) 1 1 80 80
    (by decide) (by decide) (by decide) (by decide) (by decide)
    ⟨by omega, by omega, by omega⟩ ⟨by omega, by omega, by omega⟩

/-- Mutable player fields relevant to health and invulnerability
(src/code/player.py Player.__init__ lines 45-52); image/animation and
position fields are modelled separately where needed. -/
structure PlayerState where
  health : Int
  invulnerable : Bool
  last_hit_time : Int
  last_blink_time : Int
  visible : Bool
deriving DecidableEq, Repr

/-- Invulnerability window length in ms (player.py line 48). -/
def invulnerable_duration : Int := 1500

/-- Blink toggle period in ms (player.py line 50). -/
def blink_duration : Int := 200

/-- Player state at construction (player.py lines 45-52): health 60, not
invulnerable, visible. -/
def initPlayer : PlayerState :=
  { health := 60, invulnerable := false, last_hit_time := 0,
    last_blink_time := 0, visible := true }

/-- Embedding of Player.decrease_health (src/code/player.py lines 54-72):
no-op while invulnerable; otherwise subtract the amount, clamp at 0, and -
only when the resulting health is positive - start the invulnerability
window and the blink clock at the current tick.  The hurt-sound playback on
line 62-65 touches no state and is not modelled. -/
def decrease_health (p : PlayerState) (amount now : Int) : PlayerState :=
  if p.invulnerable then p
  else
    let h := p.health - amount
    if h ≤ 0 then { p with health := 0 }
    else { p with health := h, invulnerable := true,
                  last_hit_time := now, last_blink_time := now }

/-- Embedding of the heal skill, use_skill with skill_index 0
(src/code/skills.py lines 105-109): add 20 health, cap at 60.  The heal
sound touches no state. -/
def use_skill_heal (p : PlayerState) : PlayerState :=
  let h := p.health + 20
  if h > 60 then { p with health := 60 } else { p with health := h }

/-- Embedding of the invulnerability/blink part of Player.update
(src/code/player.py lines 149-162): clear invulnerability once the 1500ms
window has elapsed, otherwise toggle visibility every 200ms; always visible
while not invulnerable.  The image alpha writes only mirror visible. -/
def player_update_invuln (p : PlayerState) (now : Int) : PlayerState :=
  if p.invulnerable then
    if now - p.last_hit_time ≥ invulnerable_duration then
      { p with invulnerable := false, visible := true }
    else if now - p.last_blink_time ≥ blink_duration then
      { p with last_blink_time := now, visible := !p.visible }
    else p
  else { p with visible := true }

/-- Operations the game performs on the player health state: a damage hit
(Game.player_collision calls decrease_health(20); the amount is kept
general), a heal-skill use, and a frame update at a given tick. -/
inductive PlayerOp where
  | damage (amount now : Int)
  | heal
  | frame (now : Int)
deriving DecidableEq, Repr

/-- Apply one player operation. -/
def applyPlayerOp (p : PlayerState) (op : PlayerOp) : PlayerState :=
  match op with
  | .damage amount now => decrease_health p amount now
  | .heal => use_skill_heal p
  | .frame now => player_update_invuln p now

/-- Run a sequence of player operations from a starting state. -/
def runPlayerOps (p : PlayerState) (ops : List PlayerOp) : PlayerState :=
  ops.foldl applyPlayerOp p

/-- Every damage amount in the operation list is nonnegative (the game's
only call site passes 20). -/
def damageAmountsNonneg (ops : List PlayerOp) : Bool :=
  ops.all fun op =>
    match op with
    | .damage amount _ => decide (0 ≤ amount)
    | _ => true

lemma player_health_bounds_step (p : PlayerState) (op : PlayerOp)
    (hnn : ∀ a t, op = PlayerOp.damage a t → 0 ≤ a)
    (h0 : 0 ≤ p.health) (h60 : p.health ≤ 60) :
    0 ≤ (applyPlayerOp p op).health ∧ (applyPlayerOp p op).health ≤ 60 := by
  cases op with
  | damage amount now =>
    have ha : 0 ≤ amount := hnn amount now rfl
    simp only [applyPlayerOp, decrease_health]
    split
    · exact ⟨h0, h60⟩
    · split <;> constructor <;> simp <;> omega
  | heal =>
    simp only [applyPlayerOp, use_skill_heal]
    split <;> constructor <;> simp <;> omega
  | frame now =>
    simp only [applyPlayerOp, player_update_invuln]
    split
    · split
      · exact ⟨h0, h60⟩
      · split
        · exact ⟨h0, h60⟩
        · exact ⟨h0, h60⟩
    · exact ⟨h0, h60⟩

lemma player_health_bounds_run (ops : List PlayerOp) :
    ∀ p : PlayerState, damageAmountsNonneg ops = true →
      0 ≤ p.health → p.health ≤ 60 →
      0 ≤ (runPlayerOps p ops).health ∧ (runPlayerOps p ops).health ≤ 60 := by
  induction ops with
  | nil => exact fun p _ h0 h60 => ⟨h0, h60⟩
  | cons op rest ih =>
    intro p hnn h0 h60
    simp only [damageAmountsNonneg, List.all_cons, Bool.and_eq_true] at hnn
    have hop : ∀ a t, op = PlayerOp.damage a t → 0 ≤ a := by
      intro a t h
      subst h
      simpa using hnn.1
    have hrest : damageAmountsNonneg rest = true := hnn.2
    have hstep := player_health_bounds_step p op hop h0 h60
    simpa only [runPlayerOps, List.foldl_cons] using
      ih (applyPlayerOp p op) hrest hstep.1 hstep.2

/-- C4: starting from the initial health of 60, any sequence of
decrease_health calls (with nonnegative damage amounts, as at the game's
only call site, which passes 20), heal-skill uses (+20 capped at 60) and
frame updates keeps the player's health in the interval [0, 60]. -/
theorem player_health_always_in_bounds (ops : List PlayerOp)
    (hnn : damageAmountsNonneg ops = true) :
    0 ≤ (runPlayerOps initPlayer ops).health ∧
    (runPlayerOps initPlayer ops).health ≤ 60 :=
  player_health_bounds_run ops initPlayer hnn (by decide) (by decide)

/-- C4 witness: a concrete operation sequence (two hits, a heal, an
invulnerability expiry, and an overkill hit) stays inside [0, 60]. -/
theorem player_health_always_in_bounds_witness :
    damageAmountsNonneg
      [PlayerOp.damage 20 1000, PlayerOp.frame 3000, PlayerOp.damage 20 3000,
       PlayerOp.heal, PlayerOp.frame 6000, PlayerOp.damage 100 6000] = true ∧
    0 ≤ (runPlayerOps initPlayer
      [PlayerOp.damage 20 1000, PlayerOp.frame 3000, PlayerOp.damage 20 3000,
       PlayerOp.heal, PlayerOp.frame 6000, PlayerOp.damage 100 6000]).health ∧
    (runPlayerOps initPlayer
      [PlayerOp.damage 20 1000, PlayerOp.frame 3000, PlayerOp.damage 20 3000,
       PlayerOp.heal, PlayerOp.frame 6000, PlayerOp.damage 100 6000]).health ≤ 60 := by
  refine ⟨by decide, ?_⟩
  exact player_health_always_in_bounds
    [PlayerOp.damage 20 1000, PlayerOp.frame 3000, PlayerOp.damage 20 3000,
     PlayerOp.heal, PlayerOp.frame 6000, PlayerOp.damage 100 6000] (by decide)

/-- C5: decrease_health is a no-op while invulnerable; otherwise it
subtracts the amount clamping at a floor of 0, grants invulnerability
(stamping the hit time, which Player.update holds for the 1500ms window)
exactly when the resulting health is positive and grants none when the
result is 0; and from health 60 three instantaneous decrease_health(20)
calls leave health 40 with invulnerable set, the second and third calls
being no-ops. -/
theorem decrease_health_spec (p : PlayerState) (amount now : Int) :
    (p.invulnerable = true → decrease_health p amount now = p) ∧
    (p.invulnerable = false →
      (decrease_health p amount now).health = max 0 (p.health - amount) ∧
      ((decrease_health p amount now).invulnerable = true ↔
        0 < p.health - amount) ∧
      (0 < p.health - amount →
        (decrease_health p amount now).last_hit_time = now) ∧
      (p.health - amount ≤ 0 →
        (decrease_health p amount now).invulnerable = false)) ∧
    invulnerable_duration = 1500 ∧
    (∀ q : PlayerState, ∀ t : Int, q.invulnerable = true →
      t - q.last_hit_time ≥ invulnerable_duration →
      (player_update_invuln q t).invulnerable = false) ∧
    (∀ t0 : Int,
      decrease_health (decrease_health initPlayer 20 t0) 20 t0 =
        decrease_health initPlayer 20 t0 ∧
      decrease_health
        (decrease_health (decrease_health initPlayer 20 t0) 20 t0) 20 t0 =
        decrease_health initPlayer 20 t0 ∧
      (decrease_health initPlayer 20 t0).health = 40 ∧
      (decrease_health initPlayer 20 t0).invulnerable = true) := by
  refine ⟨?_, ?_, rfl, ?_, ?_⟩
  · intro hinv
    simp [decrease_health, hinv]
  · intro hinv
    simp only [decrease_health, hinv, Bool.false_eq_true, if_false]
    refine ⟨?_, ?_, ?_, ?_⟩
    · split <;> simp <;> omega
    · split <;> simp <;> omega
    · intro hpos
      rw [if_neg (by omega)]
    · intro hnonpos
      rw [if_pos (by omega)]
  · intro q t hinv hdur
    simp [player_update_invuln, hinv, if_pos hdur]
  · intro t0
    have h1 : decrease_health initPlayer 20 t0 =
        { health := 40, invulnerable := true, last_hit_time := t0,
          last_blink_time := t0, visible := true } := by
      simp [decrease_health, initPlayer]
    rw [h1]
    refine ⟨by simp [decrease_health], ?_, rfl, rfl⟩
    rw [show decrease_health
        { health := 40, invulnerable := true, last_hit_time := t0,
          last_blink_time := t0, visible := true } 20 t0 =
        { health := 40, invulnerable := true, last_hit_time := t0,
          last_blink_time := t0, visible := true } from by
      simp [decrease_health]]
    simp [decrease_health]

/-- C5 witness: the three-hit scenario at tick 1000 — after the first hit
health is 40 and invulnerability holds, and the second call changes
nothing. -/
theorem decrease_health_spec_witness :
    decrease_health (decrease_health initPlayer 20 1000) 20 1000 =
      decrease_health initPlayer 20 1000 ∧
    (decrease_health initPlayer 20 1000).health = 40 ∧
    (decrease_health initPlayer 20 1000).invulnerable = true := by
  have h := (decrease_health_spec initPlayer 20 1000).2.2.2.2 1000
  exact ⟨h.1, h.2.2.1, h.2.2.2⟩

/-- Two-component vector with rational components, modelling
pygame.math.Vector2 (float components in pygame; the rationals cover every
value the claims touch exactly). -/
structure Vec2 where
  x : ℚ
  y : ℚ
deriving DecidableEq, Repr

/-- pygame Vector2 truthiness: a vector is falsy exactly when both
components are zero (Python evaluates `if self.direction` this way). -/
def Vec2.isZero (v : Vec2) : Bool := decide (v.x = 0) && decide (v.y = 0)

/-- Model of pygame Vector2.normalize(): raises ValueError on a zero-length
vector, modelled as none; on a nonzero vector it returns the unit vector
v / |v|, carried here as the positive scalar multiple v of that unit vector
(the exact length-1 scaling involves a square root; every property stated
below depends only on definedness and on component signs, which positive
scaling preserves). -/
def normalize (v : Vec2) : Option Vec2 :=
  if v.x = 0 ∧ v.y = 0 then none else some v

/-- Embedding of the direction part of Player.input (src/code/player.py
lines 86-93): the x component is right-pressed minus left-pressed, the y
component down-pressed minus up-pressed, and the normalize call is guarded
by the vector's truthiness, so the zero vector passes through unchanged and
normalize is never invoked on it. -/
def player_input (right left down up : Bool) : Option Vec2 :=
  let v : Vec2 := { x := (if right then 1 else 0) - (if left then 1 else 0),
                    y := (if down then 1 else 0) - (if up then 1 else 0) }
  if v.isZero then some v else normalize v

/-- Embedding of the direction computation in Enemy.move (src/code/enemy.py
lines 72-74): normalize(player_center - enemy_center), with NO guard on the
zero vector. -/
def enemy_move_direction (player_center enemy_center : Vec2) : Option Vec2 :=
  normalize { x := player_center.x - enemy_center.x,
              y := player_center.y - enemy_center.y }

/-- Embedding of Weapon.get_direction (src/code/weapon.py lines 37-43):
normalize(mouse_pos - screen_center), with NO guard on the zero vector. -/
def weapon_get_direction (mouse_pos screen_center : Vec2) : Option Vec2 :=
  normalize { x := mouse_pos.x - screen_center.x,
              y := mouse_pos.y - screen_center.y }

/-- C2 evidence: only the player's zero-direction case is guarded.  With no
key pressed Player.input yields the zero vector without calling normalize,
and a zero-direction move leaves the hitbox unchanged; but Enemy.move with
the enemy center exactly on the player center, and Weapon.get_direction
with the pointer exactly at the screen center (640, 360), both reach
normalize on a zero-length vector, which in pygame raises ValueError — a
fatal error, contradicting the claimed guard. -/
theorem zero_vector_guard_status :
    player_input false false false false = some { x := 0, y := 0 } ∧
    move (Rect.mk 50 50 30 30) 0 0 0 0 [Rect.mk 200 200 40 40] =
      Rect.mk 50 50 30 30 ∧
    enemy_move_direction { x := 640, y := 360 } { x := 640, y := 360 } =
      none ∧
    weapon_get_direction { x := 640, y := 360 } { x := 640, y := 360 } =
      none := by
  refine ⟨?_, by decide, ?_, ?_⟩
  · simp [player_input, normalize, Vec2.isZero]
  · simp [enemy_move_direction, normalize]
  · simp [weapon_get_direction, normalize]

/-- Mutable enemy fields relevant to the hit/death state machine
(src/code/enemy.py Enemy.__init__ lines 48-53); killed records removal from
all sprite groups by self.kill(). -/
structure EnemyState where
  hit : Bool
  invulnerable : Bool
  hit_time : Int
  death_time : Int
  killed : Bool
deriving DecidableEq, Repr

/-- Hit-state (tint/invulnerability) window in ms (enemy.py line 51). -/
def hit_duration : Int := 200

/-- Death-animation duration in ms before removal (enemy.py line 49). -/
def death_duration : Int := 200

/-- Enemy state at spawn: not hit, not invulnerable, death_time 0 (alive),
not removed. -/
def initEnemy : EnemyState :=
  { hit := false, invulnerable := false, hit_time := 0, death_time := 0,
    killed := false }

/-- Embedding of Enemy.take_damage (src/code/enemy.py lines 135-153): a
no-op while invulnerable; otherwise set the hit flag, stamp the hit time
and set invulnerable.  The white-tint image compositing and the
pygame.time.set_timer call touch no modelled state (no handler for
USEREVENT+1 exists anywhere in the code, so that timer event is ignored). -/
def take_damage (e : EnemyState) (now : Int) : EnemyState :=
  if e.invulnerable then e
  else { e with hit := true, hit_time := now, invulnerable := true }

/-- Embedding of Enemy.destroy (src/code/enemy.py lines 102-109):
unconditionally stamp the death time with the current tick (the
death-silhouette image swap touches no modelled state). -/
def destroy (e : EnemyState) (now : Int) : EnemyState :=
  { e with death_time := now }

/-- Embedding of Enemy.death_timer (src/code/enemy.py lines 111-116):
remove the sprite once the death duration has elapsed. -/
def death_timer (e : EnemyState) (now : Int) : EnemyState :=
  if now - e.death_time ≥ death_duration then { e with killed := true }
  else e

/-- Embedding of the state part of Enemy.update (src/code/enemy.py lines
118-133): while death_time is 0 the enemy moves/animates (not part of this
state) and clears the hit flag once the 200ms hit window elapses — note it
never clears the invulnerable flag; once death_time is nonzero only the
death timer runs. -/
def enemy_update (e : EnemyState) (now : Int) : EnemyState :=
  if e.death_time = 0 then
    if e.hit ∧ now - e.hit_time ≥ hit_duration then { e with hit := false }
    else e
  else death_timer e now

/-- The operations the game applies to one enemy's hit/death state:
take_damage calls and per-frame updates. -/
inductive EnemyOp where
  | dmg (now : Int)
  | frame (now : Int)
deriving DecidableEq, Repr

/-- Apply one enemy operation. -/
def applyEnemyOp (e : EnemyState) (op : EnemyOp) : EnemyState :=
  match op with
  | .dmg now => take_damage e now
  | .frame now => enemy_update e now

/-- Number of Alive→Hit transitions (hit flag rising from false to true)
along an operation sequence. -/
def hitTransitions (e : EnemyState) : List EnemyOp → Nat
  | [] => 0
  | op :: rest =>
    let e2 := applyEnemyOp e op
    (if e.hit = false ∧ e2.hit = true then 1 else 0) + hitTransitions e2 rest

lemma applyEnemyOp_invulnerable_mono (e : EnemyState) (op : EnemyOp)
    (h : e.invulnerable = true) : (applyEnemyOp e op).invulnerable = true := by
  cases op with
  | dmg now => simp [applyEnemyOp, take_damage, h]
  | frame now =>
    simp only [applyEnemyOp, enemy_update, death_timer]
    split
    · split <;> simpa
    · split <;> simpa

lemma applyEnemyOp_no_new_hit (e : EnemyState) (op : EnemyOp)
    (h : e.invulnerable = true) :
    ¬ (e.hit = false ∧ (applyEnemyOp e op).hit = true) := by
  cases op with
  | dmg now =>
    simp [applyEnemyOp, take_damage, h]
  | frame now =>
    simp only [applyEnemyOp, enemy_update, death_timer]
    rintro ⟨hf, ht⟩
    split at ht
    · split at ht <;> simp_all
    · split at ht <;> simp_all

lemma hitTransitions_zero_of_invulnerable (ops : List EnemyOp) :
    ∀ e : EnemyState, e.invulnerable = true → hitTransitions e ops = 0 := by
  induction ops with
  | nil => intro e _; rfl
  | cons op rest ih =>
    intro e h
    simp only [hitTransitions]
    rw [if_neg (applyEnemyOp_no_new_hit e op h),
      ih (applyEnemyOp e op) (applyEnemyOp_invulnerable_mono e op h)]

lemma hitTransitions_le_one (ops : List EnemyOp) :
    ∀ e : EnemyState, e.invulnerable = false → hitTransitions e ops ≤ 1 := by
  induction ops with
  | nil => intro e _; exact Nat.zero_le 1
  | cons op rest ih =>
    intro e h
    simp only [hitTransitions]
    cases op with
    | dmg now =>
      have he2 : applyEnemyOp e (EnemyOp.dmg now) =
          { e with hit := true, hit_time := now, invulnerable := true } := by
        simp [applyEnemyOp, take_damage, h]
      rw [he2]
      rw [hitTransitions_zero_of_invulnerable rest _ rfl]
      split <;> omega
    | frame now =>
      have hinv2 : (applyEnemyOp e (EnemyOp.frame now)).invulnerable = false := by
        simp only [applyEnemyOp, enemy_update, death_timer]
        split
        · split <;> simpa
        · split <;> simpa
      have hnohit : ¬ (e.hit = false ∧
          (applyEnemyOp e (EnemyOp.frame now)).hit = true) := by
        simp only [applyEnemyOp, enemy_update, death_timer]
        rintro ⟨hf, ht⟩
        split at ht
        · split at ht <;> simp_all
        · split at ht <;> simp_all
      rw [if_neg hnohit]
      simpa using ih (applyEnemyOp e (EnemyOp.frame now)) hinv2

/-- C6 counterexample: take_damage at tick 0, a frame update at tick 300
(after the 200ms hit window has expired, clearing the hit tint), then
take_damage again at tick 300 — the claim says the second call can take
effect once the window has expired, but the code leaves invulnerable set
forever, so the second call is a no-op and the hit flag stays false. -/
theorem take_damage_after_window_counterexample :
    (enemy_update (take_damage initEnemy 0) 300).hit = false ∧
    (enemy_update (take_damage initEnemy 0) 300).invulnerable = true ∧
    take_damage (enemy_update (take_damage initEnemy 0) 300) 300 =
      enemy_update (take_damage initEnemy 0) 300 := by
  refine ⟨by decide, by decide, by decide⟩

/-- C6 (amended): along any sequence of take_damage calls and frame updates
on one enemy, at most one Alive→Hit transition ever occurs — not merely
within the invulnerability window: the hit-window expiry in Enemy.update
clears the hit tint but never the invulnerable flag, so every take_damage
call after the first effective one is a permanent no-op. -/
theorem take_damage_at_most_one_hit_transition (ops : List EnemyOp) :
    hitTransitions initEnemy ops ≤ 1 ∧
    (∀ e : EnemyState, ∀ t : Int, e.invulnerable = true →
      take_damage e t = e) := by
  refine ⟨hitTransitions_le_one ops initEnemy rfl, ?_⟩
  intro e t h
  simp [take_damage, h]

/-- C6 witness: on a concrete hit/update/hit sequence only the first
take_damage produces a transition, and take_damage on an invulnerable
enemy is the identity. -/
theorem take_damage_at_most_one_hit_transition_witness :
    hitTransitions initEnemy
      [EnemyOp.dmg 100, EnemyOp.frame 400, EnemyOp.dmg 400] ≤ 1 ∧
    take_damage
      { hit := false, invulnerable := true, hit_time := 100, death_time := 0,
        killed := false } 900 =
      { hit := false, invulnerable := true, hit_time := 100, death_time := 0,
        killed := false } := by
  have h := take_damage_at_most_one_hit_transition
    [EnemyOp.dmg 100, EnemyOp.frame 400, EnemyOp.dmg 400]
  exact ⟨h.1, h.2 _ 900 rfl⟩

/-- Per-enemy view of the combat resolver state: the enemy's hit/death
state, the player's health state, the global score, and counters recording
how many times the resolver ran destroy() and dealt contact damage to the
player for this enemy (instrumentation for the at-most-once properties). -/
structure CombatState where
  enemy : EnemyState
  player : PlayerState
  score : Int
  scoreAwards : Nat
  destroyCalls : Nat
  contactHits : Nat
deriving DecidableEq, Repr

/-- Combat events the frame loop applies to one enemy: a bullet/slash mask
overlap processed by Game.bullet_collision, a player mask overlap processed
by Game.player_collision, and the enemy's own frame update. -/
inductive CombatOp where
  | bulletOverlap (now : Int)
  | playerOverlap (now : Int)
  | frame (now : Int)
deriving DecidableEq, Repr

/-- Embedding of the per-enemy body of Game.bullet_collision
(src/code/main.py lines 267-282): on a mask overlap, if the enemy is not
already in the hit state run take_damage, destroy and award +10 score; if
it is already hit, run take_damage only (no score, no destroy).  The
projectile's own kill is not part of this per-enemy state. -/
def bullet_collision_hit (g : CombatState) (now : Int) : CombatState :=
  if g.enemy.hit = false then
    { g with enemy := destroy (take_damage g.enemy now) now,
             score := g.score + 10,
             scoreAwards := g.scoreAwards + 1,
             destroyCalls := g.destroyCalls + 1 }
  else { g with enemy := take_damage g.enemy now }

/-- Embedding of the per-enemy body of Game.player_collision
(src/code/main.py lines 284-297): on a mask overlap with a non-invulnerable
enemy, run take_damage and destroy on the enemy and decrease_health(20) on
the player; invulnerable enemies are skipped. -/
def player_collision_hit (g : CombatState) (now : Int) : CombatState :=
  if g.enemy.invulnerable = false then
    { g with enemy := destroy (take_damage g.enemy now) now,
             player := decrease_health g.player 20 now,
             contactHits := g.contactHits + 1,
             destroyCalls := g.destroyCalls + 1 }
  else g

/-- Apply one combat event. -/
def applyCombatOp (g : CombatState) (op : CombatOp) : CombatState :=
  match op with
  | .bulletOverlap now => bullet_collision_hit g now
  | .playerOverlap now => player_collision_hit g now
  | .frame now => { g with enemy := enemy_update g.enemy now }

/-- Run a sequence of combat events. -/
def runCombatOps (g : CombatState) (ops : List CombatOp) : CombatState :=
  ops.foldl applyCombatOp g

/-- Combat state for a freshly spawned enemy. -/
def initCombat (p : PlayerState) : CombatState :=
  { enemy := initEnemy, player := p, score := 0, scoreAwards := 0,
    destroyCalls := 0, contactHits := 0 }

/-- All event timestamps are positive (pygame.time.get_ticks is past 0 by
the time the game state is reached; a destroy at tick 0 would collide with
the death_time = 0 alive sentinel). -/
def combatTimesPos (ops : List CombatOp) : Bool :=
  ops.all fun op =>
    match op with
    | .bulletOverlap now => decide (0 < now)
    | .playerOverlap now => decide (0 < now)
    | .frame now => decide (0 < now)

/-- Reachability invariant of the combat state: while the enemy is unhit
nothing has been awarded or destroyed; once hit, it is invulnerable, its
death timestamp is set, and every counter is at most one. -/
def CombatInv (g : CombatState) : Prop :=
  (g.enemy.hit = false →
    g.enemy.invulnerable = false ∧ g.enemy.death_time = 0 ∧
    g.scoreAwards = 0 ∧ g.destroyCalls = 0 ∧ g.contactHits = 0) ∧
  (g.enemy.hit = true →
    g.enemy.invulnerable = true ∧ g.enemy.death_time ≠ 0 ∧
    g.scoreAwards ≤ 1 ∧ g.destroyCalls ≤ 1 ∧ g.contactHits ≤ 1) ∧
  g.score = 10 * (g.scoreAwards : Int)

def combatOpTime (op : CombatOp) : Int :=
  match op with
  | .bulletOverlap now => now
  | .playerOverlap now => now
  | .frame now => now

lemma combatInv_step (g : CombatState) (op : CombatOp)
    (hpos : 0 < combatOpTime op)
    (hinv : CombatInv g) : CombatInv (applyCombatOp g op) := by
  obtain ⟨hF, hT, hS⟩ := hinv
  cases op with
  | bulletOverlap now =>
    have hnow : 0 < now := hpos
    simp only [applyCombatOp, bullet_collision_hit]
    by_cases hh : g.enemy.hit = false
    · obtain ⟨hi, hd, hs, hdc, hc⟩ := hF hh
      rw [if_pos hh]
      refine ⟨?_, ?_, ?_⟩ <;>
        simp [take_damage, destroy, hi, hs, hdc, hc, hS] <;> omega
    · have hh2 : g.enemy.hit = true := by
        cases hht : g.enemy.hit <;> simp_all
      obtain ⟨hi, hd, hs, hdc, hc⟩ := hT hh2
      rw [if_neg hh]
      refine ⟨?_, ?_, ?_⟩ <;>
        simp [take_damage, hi, hh2, hs, hdc, hc, hS, hd]
  | playerOverlap now =>
    have hnow : 0 < now := hpos
    simp only [applyCombatOp, player_collision_hit]
    by_cases hi : g.enemy.invulnerable = false
    · have hh : g.enemy.hit = false := by
        cases hht : g.enemy.hit
        · rfl
        · exact absurd (hT hht).1 (by simp [hi])
      obtain ⟨_, hd, hs, hdc, hc⟩ := hF hh
      rw [if_pos hi]
      refine ⟨?_, ?_, ?_⟩ <;>
        simp [take_damage, destroy, hi, hs, hdc, hc, hS] <;> omega
    · rw [if_neg hi]
      exact ⟨hF, hT, hS⟩
  | frame now =>
    simp only [applyCombatOp, enemy_update, death_timer]
    by_cases hd0 : g.enemy.death_time = 0
    · rw [if_pos hd0]
      by_cases hcl : g.enemy.hit = true ∧ now - g.enemy.hit_time ≥ hit_duration
      · exact absurd hd0 (hT hcl.1).2.1
      · rw [if_neg hcl]
        exact ⟨hF, hT, hS⟩
    · rw [if_neg hd0]
      have hh : g.enemy.hit = true := by
        cases hht : g.enemy.hit
        · exact absurd (hF hht).2.1 hd0
        · rfl
      obtain ⟨hi, hdn, hs, hdc, hc⟩ := hT hh
      split <;>
        exact ⟨fun hcon => by simp_all, fun _ => ⟨hi, hdn, hs, hdc, hc⟩, hS⟩

lemma combatInv_run (ops : List CombatOp) :
    ∀ g : CombatState, combatTimesPos ops = true → CombatInv g →
      CombatInv (runCombatOps g ops) := by
  induction ops with
  | nil => exact fun g _ h => h
  | cons op rest ih =>
    intro g hpos hinv
    simp only [combatTimesPos, List.all_cons, Bool.and_eq_true] at hpos
    have hop : 0 < combatOpTime op := by
      cases op <;> simpa [combatOpTime] using hpos.1
    simpa only [runCombatOps, List.foldl_cons] using
      ih (applyCombatOp g op) hpos.2 (combatInv_step g op hop hinv)

/-- C7 counterexample: Enemy.destroy is NOT first-call-wins — a second
destroy() call at a later tick overwrites the death timestamp and extends
the enemy's life: after destroy at tick 100 followed by destroy at tick
300, death_time is 300 rather than 100, and at tick 350 the death timer
(tick 350 - 100 ≥ 200 would have removed a first-call-wins enemy) leaves
the enemy un-removed. -/
theorem destroy_resets_death_timestamp_counterexample :
    (destroy (destroy initEnemy 100) 300).death_time = 300 ∧
    (destroy (destroy initEnemy 100) 300).death_time ≠ 100 ∧
    (death_timer (destroy initEnemy 100) 350).killed = true ∧
    (death_timer (destroy (destroy initEnemy 100) 300) 350).killed = false := by
  refine ⟨by decide, by decide, by decide, by decide⟩

/-- C7 (amended): destroy() itself is last-call-wins (each call overwrites
the death timestamp), but the combat resolver's call sites guard it — along
any sequence of bullet overlaps, player overlaps and frame updates on one
enemy (with positive ticks), destroy() runs at most once, the +10 score is
awarded at most once (score is exactly 10 x awards), so score and lifecycle
stay idempotent at the system level. -/
theorem combat_at_most_one_destroy_and_score (ops : List CombatOp)
    (p : PlayerState) (hpos : combatTimesPos ops = true) :
    (runCombatOps (initCombat p) ops).scoreAwards ≤ 1 ∧
    (runCombatOps (initCombat p) ops).destroyCalls ≤ 1 ∧
    (runCombatOps (initCombat p) ops).score =
      10 * ((runCombatOps (initCombat p) ops).scoreAwards : Int) := by
  have hinit : CombatInv (initCombat p) := by
    refine ⟨fun _ => ⟨rfl, rfl, rfl, rfl, rfl⟩, fun h => by simp [initCombat, initEnemy] at h, by simp [initCombat]⟩
  have h := combatInv_run ops (initCombat p) hpos hinit
  obtain ⟨hF, hT, hS⟩ := h
  by_cases hh : (runCombatOps (initCombat p) ops).enemy.hit = true
  · obtain ⟨_, _, hs, hdc, _⟩ := hT hh
    exact ⟨hs, hdc, hS⟩
  · have hh2 : (runCombatOps (initCombat p) ops).enemy.hit = false := by
      cases hht : (runCombatOps (initCombat p) ops).enemy.hit <;> simp_all
    obtain ⟨_, _, hs, hdc, _⟩ := hF hh2
    exact ⟨by omega, by omega, hS⟩

/-- C7 witness: two bullet overlaps and a player overlap on the same enemy
award the score once and run destroy once. -/
theorem combat_at_most_one_destroy_and_score_witness :
    combatTimesPos
      [CombatOp.bulletOverlap 500, CombatOp.bulletOverlap 500,
       CombatOp.playerOverlap 600, CombatOp.frame 900] = true ∧
    (runCombatOps (initCombat initPlayer)
      [CombatOp.bulletOverlap 500, CombatOp.bulletOverlap 500,
       CombatOp.playerOverlap 600, CombatOp.frame 900]).scoreAwards ≤ 1 ∧
    (runCombatOps (initCombat initPlayer)
      [CombatOp.bulletOverlap 500, CombatOp.bulletOverlap 500,
       CombatOp.playerOverlap 600, CombatOp.frame 900]).destroyCalls ≤ 1 := by
  refine ⟨by decide, ?_⟩
  have h := combat_at_most_one_destroy_and_score
    [CombatOp.bulletOverlap 500, CombatOp.bulletOverlap 500,
     CombatOp.playerOverlap 600, CombatOp.frame 900] initPlayer (by decide)
  exact ⟨h.1, h.2.1⟩

/-- C8: once take_damage has run effectively, no operation ever clears the
enemy's invulnerable flag — take_damage sets it, Enemy.update clears only
the hit flag, and no handler exists for the USEREVENT+1 timer — so every
later take_damage call on that enemy is a no-op, and the player-collision
check (which skips invulnerable enemies) deals contact damage from one
enemy at most once. -/
theorem enemy_invulnerable_is_permanent (ops : List CombatOp)
    (p : PlayerState) (hpos : combatTimesPos ops = true) :
    (∀ g : CombatState, ∀ op : CombatOp, g.enemy.invulnerable = true →
      (applyCombatOp g op).enemy.invulnerable = true) ∧
    (∀ e : EnemyState, ∀ t : Int, e.invulnerable = true →
      take_damage e t = e) ∧
    (runCombatOps (initCombat p) ops).contactHits ≤ 1 := by
  refine ⟨?_, ?_, ?_⟩
  · intro g op hg
    cases op with
    | bulletOverlap now =>
      simp only [applyCombatOp, bullet_collision_hit]
      split <;> simp [take_damage, destroy, hg]
    | playerOverlap now =>
      simp only [applyCombatOp, player_collision_hit]
      split <;> simp_all [take_damage, destroy]
    | frame now =>
      simp only [applyCombatOp, enemy_update, death_timer]
      split
      · split <;> simpa
      · split <;> simpa
  · intro e t h
    simp [take_damage, h]
  · have hinit : CombatInv (initCombat p) := by
      refine ⟨fun _ => ⟨rfl, rfl, rfl, rfl, rfl⟩, fun h => by simp [initCombat, initEnemy] at h, by simp [initCombat]⟩
    have h := combatInv_run ops (initCombat p) hpos hinit
    obtain ⟨hF, hT, _⟩ := h
    by_cases hh : (runCombatOps (initCombat p) ops).enemy.hit = true
    · exact (hT hh).2.2.2.2
    · have hh2 : (runCombatOps (initCombat p) ops).enemy.hit = false := by
        cases hht : (runCombatOps (initCombat p) ops).enemy.hit <;> simp_all
      have := (hF hh2).2.2.2.2
      omega

/-- C8 witness: with two player overlaps on one enemy, contact damage is
applied at most once, and take_damage on an invulnerable enemy is the
identity. -/
theorem enemy_invulnerable_is_permanent_witness :
    (runCombatOps (initCombat initPlayer)
      [CombatOp.playerOverlap 400, CombatOp.playerOverlap 700]).contactHits ≤ 1 ∧
    take_damage
      { hit := true, invulnerable := true, hit_time := 50, death_time := 60,
        killed := false } 800 =
      { hit := true, invulnerable := true, hit_time := 50, death_time := 60,
        killed := false } := by
  have h := enemy_invulnerable_is_permanent
    [CombatOp.playerOverlap 400, CombatOp.playerOverlap 700] initPlayer
    (by decide)
  exact ⟨h.2.2, h.2.1 _ 800 rfl⟩

/-- Maximum number of concurrent enemies (src/code/main.py line 71). -/
def max_enemies : Nat := 20

/-- The obstacle-containment test used by Game.spawn_enemy
(src/code/main.py lines 373-377): the candidate point lies inside the
obstacle's closed rectangle (inclusive comparisons, unlike colliderect). -/
def obstacleContains (s : Rect) (p : Int × Int) : Bool :=
  decide (s.left ≤ p.1) && decide (p.1 ≤ s.right) &&
  decide (s.top ≤ p.2) && decide (p.2 ≤ s.bottom)

/-- The distance test used by Game.spawn_enemy (src/code/main.py line 379):
Vector2(spawn_pos).distance_to(player_pos) < 400, stated equivalently on
squared distances (both sides are nonnegative, so the comparison with the
square root is exact). -/
def withinSpawnExclusion (p player_pos : Int × Int) : Bool :=
  decide ((p.1 - player_pos.1) ^ 2 + (p.2 - player_pos.2) ^ 2 < 400 ^ 2)

/-- One iteration of the rejection-sampling loop body in Game.spawn_enemy
(src/code/main.py lines 368-380): a candidate is valid when no obstacle
contains it and it is not within 400 units of the player. -/
def valid_spawn_check (obstacles : List Rect) (player_pos : Int × Int)
    (p : Int × Int) : Bool :=
  obstacles.all (fun s => !obstacleContains s p) &&
  !withinSpawnExclusion p player_pos

/-- The while-loop of Game.spawn_enemy observed for finitely many
iterations: choices is the sequence of random draws from spawn_positions
(in order); the loop exits at the first valid draw, returning it.  A none
result means the loop guard was still false after consuming every listed
draw — the while loop has not terminated within that many iterations. -/
def spawn_search (obstacles : List Rect) (player_pos : Int × Int)
    (choices : List (Int × Int)) : Option (Int × Int) :=
  choices.find? (valid_spawn_check obstacles player_pos)

/-- C3: when no spawn position is valid (each is inside an obstacle or
within 400 units of the player), the rejection-sampling loop in
Game.spawn_enemy never exits: for every finite sequence of random draws
from the spawn-position list, the loop guard is still unsatisfied — the
code has no retry bound and loops forever, blocking the frame loop, instead
of skipping the spawn for the tick as the claim requires. -/
theorem spawn_loop_never_terminates_when_exhausted
    (obstacles : List Rect) (player_pos : Int × Int)
    (spawn_positions : List (Int × Int))
    (hexhausted : ∀ p ∈ spawn_positions,
      valid_spawn_check obstacles player_pos p = false)
    (choices : List (Int × Int))
    (hchoices : ∀ c ∈ choices, c ∈ spawn_positions) :
    spawn_search obstacles player_pos choices = none := by
  induction choices with
  | nil => rfl
  | cons c rest ih =>
    have hc : valid_spawn_check obstacles player_pos c = false :=
      hexhausted c (hchoices c (List.mem_cons_self c rest))
    simp only [spawn_search, List.find?] at *
    rw [hc]
    exact ih fun d hd => hchoices d (List.mem_cons_of_mem c hd)

/-- C3 witness: a single spawn point at the player's position (inside the
400-unit exclusion) is never accepted no matter how many times the loop
draws it. -/
theorem spawn_loop_never_terminates_when_exhausted_witness :
    spawn_search [] (100, 100) [(100, 100), (100, 100), (100, 100)] = none := by
  exact spawn_loop_never_terminates_when_exhausted [] (100, 100) [(100, 100)]
    (by decide) [(100, 100), (100, 100), (100, 100)] (by decide)

/-- Mutable Bullet fields (src/code/sprites.py Bullet.__init__ lines
74-80): center position, spawn tick, lifetime, direction and speed. -/
structure Bullet where
  center : Vec2
  spawn_time : Int
  lifetime : Int
  direction : Vec2
  speed : ℚ
deriving DecidableEq, Repr

/-- A Bullet as constructed (src/code/sprites.py lines 64-80): spawn_time
is the current tick, lifetime 500ms, speed 1200. -/
def mkBullet (pos direction : Vec2) (now : Int) : Bullet :=
  { center := pos, spawn_time := now, lifetime := 500,
    direction := direction, speed := 1200 }

/-- Embedding of Bullet.update (src/code/sprites.py lines 82-91): move the
center by direction * speed * dt, then kill (none) once the age reaches the
lifetime.  The update consults nothing but the clock — no enemy or overlap
information enters it.  (pygame truncates the center to ints on assignment;
the exact rational center is carried, which the lifetime logic ignores.) -/
def bullet_update (b : Bullet) (now : Int) (dt : ℚ) : Option Bullet :=
  let moved := { b with center := { x := b.center.x + b.direction.x * b.speed * dt,
                                    y := b.center.y + b.direction.y * b.speed * dt } }
  if now - b.spawn_time ≥ b.lifetime then none else some moved

/-- Mutable Slash fields (src/code/sprites.py Slash.__init__ lines
107-126). -/
structure Slash where
  center : Vec2
  spawn_time : Int
  lifetime : Int
  direction : Vec2
  speed : ℚ
deriving DecidableEq, Repr

/-- A Slash as constructed (src/code/sprites.py line 107): lifetime
defaults to 200ms and speed to 400 (the melee ring skill passes 300 and
1000, src/code/skills.py line 129). -/
def mkSlash (pos direction : Vec2) (now : Int) (lifetime : Int := 200)
    (speed : ℚ := 400) : Slash :=
  { center := pos, spawn_time := now, lifetime := lifetime,
    direction := direction, speed := speed }

/-- Embedding of Slash.update (src/code/sprites.py lines 128-137): same
move-then-expire shape as Bullet.update. -/
def slash_update (sl : Slash) (now : Int) (dt : ℚ) : Option Slash :=
  let moved := { sl with center := { x := sl.center.x + sl.direction.x * sl.speed * dt,
                                     y := sl.center.y + sl.direction.y * sl.speed * dt } }
  if now - sl.spawn_time ≥ sl.lifetime then none else some moved

/-- C9: a projectile created at tick T with lifetime L is removed (killed)
at every update whose tick is at or past T + L, unconditionally — the
expiry test in Bullet.update and Slash.update reads only the clock, never
any overlap information — and conversely it survives updates strictly
before T + L; a Bullet is constructed with lifetime 500 and a Slash with
lifetime 200 by default. -/
theorem projectile_removed_at_lifetime
    (b : Bullet) (sl : Slash) (now : Int) (dt : ℚ) :
    (b.spawn_time + b.lifetime ≤ now → bullet_update b now dt = none) ∧
    (now < b.spawn_time + b.lifetime →
      (bullet_update b now dt).isSome = true) ∧
    (sl.spawn_time + sl.lifetime ≤ now → slash_update sl now dt = none) ∧
    (now < sl.spawn_time + sl.lifetime →
      (slash_update sl now dt).isSome = true) ∧
    (∀ pos dir : Vec2, ∀ t : Int,
      (mkBullet pos dir t).lifetime = 500 ∧
      (mkBullet pos dir t).spawn_time = t ∧
      (mkSlash pos dir t).lifetime = 200 ∧
      (mkSlash pos dir t).spawn_time = t) := by
  refine ⟨?_, ?_, ?_, ?_, fun pos dir t => ⟨rfl, rfl, rfl, rfl⟩⟩
  · intro h
    simp only [bullet_update]
    rw [if_pos (by omega)]
  · intro h
    simp only [bullet_update]
    rw [if_neg (by omega)]
    rfl
  · intro h
    simp only [slash_update]
    rw [if_pos (by omega)]
  · intro h
    simp only [slash_update]
    rw [if_neg (by omega)]
    rfl

/-- C9 witness: a bullet spawned at tick 1000 is gone at its first update
at tick 1500 and alive at tick 1499, whether or not it ever overlapped
anything. -/
theorem projectile_removed_at_lifetime_witness :
    bullet_update (mkBullet { x := 0, y := 0 } { x := 1, y := 0 } 1000)
      1500 (1 / 60) = none ∧
    (bullet_update (mkBullet { x := 0, y := 0 } { x := 1, y := 0 } 1000)
      1499 (1 / 60)).isSome = true ∧
    slash_update (mkSlash { x := 0, y := 0 } { x := 1, y := 0 } 1000)
      1200 (1 / 60) = none := by
  have h1 := projectile_removed_at_lifetime
    (mkBullet { x := 0, y := 0 } { x := 1, y := 0 } 1000)
    (mkSlash { x := 0, y := 0 } { x := 1, y := 0 } 1000) 1500 (1 / 60)
  have h2 := projectile_removed_at_lifetime
    (mkBullet { x := 0, y := 0 } { x := 1, y := 0 } 1000)
    (mkSlash { x := 0, y := 0 } { x := 1, y := 0 } 1000) 1499 (1 / 60)
  have h3 := projectile_removed_at_lifetime
    (mkBullet { x := 0, y := 0 } { x := 1, y := 0 } 1000)
    (mkSlash { x := 0, y := 0 } { x := 1, y := 0 } 1000) 1200 (1 / 60)
  exact ⟨h1.1 (by decide), h2.2.1 (by decide), h3.2.2.1 (by decide)⟩

/-- Weapon mode carried by Weapon.weapon_type (src/code/weapon.py lines
35, 45-54): 'gun' (ranged) or 'sword' (melee). -/
inductive WeaponType where
  | gun
  | sword
deriving DecidableEq, Repr

/-- Embedding of Weapon.switch_weapon (src/code/weapon.py lines 45-54):
toggle the weapon type (the image swap is visual only). -/
def switch_weapon : WeaponType → WeaponType
  | .gun => .sword
  | .sword => .gun

/-- Mutable PlayerSkills fields relevant to cooldown tracking
(src/code/skills.py PlayerSkills.__init__ lines 41-55), together with the
weapon mode held by game.gun. -/
structure SkillsState where
  skill_last_used0 : Int
  skill_last_used1 : Int
  skill_last_used2 : Int
  gun_skill2_last_used_time : Int
  sword_skill2_last_used_time : Int
  skill2_last_used_time : Int
  skill2_active : Bool
  count : Nat
  weapon_type : WeaponType
deriving DecidableEq, Repr

/-- Per-slot cooldowns in ms: heal 60s, burst 20s, weapon switch 10s
(src/code/skills.py line 41). -/
def skill_cooldown (idx : Nat) : Int :=
  if idx = 0 then 60000 else if idx = 1 then 20000 else 10000

/-- PlayerSkills state at construction at tick t0 (src/code/skills.py lines
41-55): every last-used timestamp is backdated by a full cooldown so every
slot starts ready; weapon starts as the gun. -/
def initSkills (t0 : Int) : SkillsState :=
  { skill_last_used0 := t0 - 60000, skill_last_used1 := t0 - 20000,
    skill_last_used2 := t0 - 10000,
    gun_skill2_last_used_time := t0 - 20000,
    sword_skill2_last_used_time := t0 - 20000,
    skill2_last_used_time := 0, skill2_active := false, count := 0,
    weapon_type := .gun }

/-- Observable combat effect of a skill use. -/
inductive SkillEffect where
  | healPlayer
  | burstActivated (bullets : Nat)
  | ringSlashes (slashes : Nat)
  | weaponSwitched
deriving DecidableEq, Repr

/-- Embedding of PlayerSkills.use_skill (src/code/skills.py lines 97-143):
index 0 heals the player (modelled on PlayerState by use_skill_heal);
index 1 in gun mode activates the 5s burst window and fires a 3-bullet fan
unless the window is already active (re-entrant guard), and in sword mode
immediately fires an 8-direction ring of slashes; index 2 toggles the
weapon and bumps the sound/art alternation counter (both parity branches
increment count). -/
def use_skill (s : SkillsState) (idx : Nat) (now : Int) :
    SkillsState × List SkillEffect :=
  if idx = 0 then (s, [SkillEffect.healPlayer])
  else if idx = 1 then
    if s.weapon_type ≠ .sword ∧ s.skill2_active = false then
      ({ s with skill2_active := true, skill2_last_used_time := now },
       [SkillEffect.burstActivated 3])
    else if s.weapon_type = .sword then (s, [SkillEffect.ringSlashes 8])
    else (s, [])
  else if idx = 2 then
    ({ s with weapon_type := switch_weapon s.weapon_type,
              count := s.count + 1 },
     [SkillEffect.weaponSwitched])
  else (s, [])

/-- Result of a key press routed through PlayerSkills.handle_skill_use. -/
structure SkillOutcome where
  state : SkillsState
  effects : List SkillEffect
  used : Bool
deriving DecidableEq, Repr

/-- Embedding of PlayerSkills.handle_skill_use (src/code/skills.py lines
57-77) for skill_index in {0,1,2} (keys 1/2/3): slot 1 checks and stamps
gun_skill2_last_used_time in gun mode and sword_skill2_last_used_time in
sword mode — two independent cooldown clocks; the other slots use their own
last-used entry.  used records whether the cooldown check passed and
use_skill ran. -/
def handle_skill_use (s : SkillsState) (skill_index : Nat) (now : Int) :
    SkillOutcome :=
  if skill_index = 1 then
    if s.weapon_type ≠ .sword ∧
        now - s.gun_skill2_last_used_time ≥ skill_cooldown 1 then
      let r := use_skill s 1 now
      { state := { r.1 with gun_skill2_last_used_time := now },
        effects := r.2, used := true }
    else if s.weapon_type = .sword ∧
        now - s.sword_skill2_last_used_time ≥ skill_cooldown 1 then
      let r := use_skill s 1 now
      { state := { r.1 with sword_skill2_last_used_time := now },
        effects := r.2, used := true }
    else { state := s, effects := [], used := false }
  else if skill_index = 0 then
    if now - s.skill_last_used0 ≥ skill_cooldown 0 then
      let r := use_skill s 0 now
      { state := { r.1 with skill_last_used0 := now },
        effects := r.2, used := true }
    else { state := s, effects := [], used := false }
  else
    if now - s.skill_last_used2 ≥ skill_cooldown 2 then
      let r := use_skill s 2 now
      { state := { r.1 with skill_last_used2 := now },
        effects := r.2, used := true }
    else { state := s, effects := [], used := false }

lemma handle1_gun_fires (s : SkillsState) (now : Int)
    (hwt : s.weapon_type = WeaponType.gun) (hact : s.skill2_active = false)
    (hcd : skill_cooldown 1 ≤ now - s.gun_skill2_last_used_time) :
    handle_skill_use s 1 now =
      { state :=
          { s with
            skill2_active := true
            skill2_last_used_time := now
            gun_skill2_last_used_time := now }
        effects := [SkillEffect.burstActivated 3]
        used := true } := by
  have hne : s.weapon_type ≠ WeaponType.sword := by simp [hwt]
  unfold handle_skill_use use_skill
  rw [if_pos rfl, if_pos ⟨hne, hcd⟩]
  norm_num
  rw [if_pos ⟨hne, hact⟩]
  simp

lemma handle2_switch (s : SkillsState) (now : Int)
    (hcd : skill_cooldown 2 ≤ now - s.skill_last_used2) :
    handle_skill_use s 2 now =
      { state :=
          { s with
            weapon_type := switch_weapon s.weapon_type
            count := s.count + 1
            skill_last_used2 := now }
        effects := [SkillEffect.weaponSwitched]
        used := true } := by
  unfold handle_skill_use use_skill
  norm_num
  exact hcd

lemma handle1_sword_fires (s : SkillsState) (now : Int)
    (hwt : s.weapon_type = WeaponType.sword)
    (hcd : skill_cooldown 1 ≤ now - s.sword_skill2_last_used_time) :
    handle_skill_use s 1 now =
      { state := { s with sword_skill2_last_used_time := now }
        effects := [SkillEffect.ringSlashes 8]
        used := true } := by
  unfold handle_skill_use use_skill
  rw [if_pos rfl, if_neg (by simp [hwt]), if_pos ⟨hwt, hcd⟩]
  norm_num
  rw [if_neg (by simp [hwt]), if_pos hwt]
  simp

/-- C10: slot 1's cooldown is tracked separately per weapon mode — a slot-1
use in gun mode never touches the sword clock and vice versa, the weapon
switch (slot 2) touches neither clock, and in the scenario from a fresh
state (use slot 1 in ranged mode, switch to melee, immediately use slot 1
again, all at any ticks at or after construction) every step succeeds, the
second slot-1 use firing the 8-slash melee ring. -/
theorem skill1_cooldown_per_weapon_mode (s : SkillsState) (now : Int) :
    (s.weapon_type = .gun →
      (handle_skill_use s 1 now).state.sword_skill2_last_used_time =
        s.sword_skill2_last_used_time) ∧
    (s.weapon_type = .sword →
      (handle_skill_use s 1 now).state.gun_skill2_last_used_time =
        s.gun_skill2_last_used_time) ∧
    ((handle_skill_use s 2 now).state.gun_skill2_last_used_time =
        s.gun_skill2_last_used_time ∧
      (handle_skill_use s 2 now).state.sword_skill2_last_used_time =
        s.sword_skill2_last_used_time) ∧
    (∀ t0 t1 t2 t3 : Int, t0 ≤ t1 → t0 ≤ t2 → t0 ≤ t3 →
      (handle_skill_use (initSkills t0) 1 t1).used = true ∧
      (handle_skill_use (handle_skill_use (initSkills t0) 1 t1).state
          2 t2).state.weapon_type = .sword ∧
      (handle_skill_use (handle_skill_use
          (handle_skill_use (initSkills t0) 1 t1).state 2 t2).state
          1 t3).used = true ∧
      (handle_skill_use (handle_skill_use
          (handle_skill_use (initSkills t0) 1 t1).state 2 t2).state
          1 t3).effects = [SkillEffect.ringSlashes 8]) := by
  refine ⟨?_, ?_, ?_, ?_⟩
  · intro hg
    simp only [handle_skill_use, use_skill, skill_cooldown]
    norm_num
    split_ifs <;> simp_all
  · intro hs
    simp only [handle_skill_use, use_skill, skill_cooldown]
    norm_num
    split_ifs <;> simp_all
  · simp only [handle_skill_use, use_skill, skill_cooldown]
    norm_num
    split_ifs <;> simp_all
  · intro t0 t1 t2 t3 h1 h2 h3
    rw [handle1_gun_fires (initSkills t0) t1 rfl rfl
      (by simp [initSkills, skill_cooldown]; omega)]
    rw [handle2_switch _ t2 (by simp [initSkills, skill_cooldown]; omega)]
    rw [handle1_sword_fires _ t3 (by simp [initSkills, switch_weapon])
      (by simp [initSkills, skill_cooldown]; omega)]
    exact ⟨rfl, by simp [initSkills, switch_weapon], rfl, rfl⟩

/-- C10 witness: the ranged-use / switch / immediate melee-use scenario at
concrete ticks 100000 (all three presses in the same tick). -/
theorem skill1_cooldown_per_weapon_mode_witness :
    ((initSkills 100000).weapon_type = WeaponType.gun ∧
      (handle_skill_use (initSkills 100000) 1
        100000).state.sword_skill2_last_used_time =
        (initSkills 100000).sword_skill2_last_used_time) ∧
    (handle_skill_use (handle_skill_use
      (handle_skill_use (initSkills 100000) 1 100000).state 2 100000).state
      1 100000).used = true := by
  have h := skill1_cooldown_per_weapon_mode (initSkills 100000) 100000
  have hsc := h.2.2.2 100000 100000 100000 100000 le_rfl le_rfl le_rfl
  exact ⟨⟨rfl, h.1 rfl⟩, hsc.2.2.1⟩

end WarriorSurvivors
